import Mathlib

/-!
Shallow embedding of the USDS_Libra off-chain payment-channel client
(`src/client/src/lib.rs` and `src/client/src/resource.rs`), together with
theorems verifying the natural-language specification's claims about it.

Machine integers (`u64`, `u32`) are modelled as `Nat` with explicit
reduction modulo `2 ^ 64` / `2 ^ 32` exactly where the Rust arithmetic can
wrap (release-build two's-complement semantics); byte strings (`Vec<u8>`,
`ByteArray`) are `List Nat`; `AccountAddress` is its byte string;
fallible Rust functions returning `Result` become `Except`.
-/

instance {ε α : Type} [DecidableEq ε] [DecidableEq α] : DecidableEq (Except ε α) := fun
  | .ok a, .ok b => decidable_of_iff (a = b) (by simp)
  | .ok _, .error _ => .isFalse (by simp)
  | .error _, .ok _ => .isFalse (by simp)
  | .error e, .error f => decidable_of_iff (e = f) (by simp)

/-- One u64 step: `2 ^ 64`, the modulus of Rust `u64` arithmetic. -/
def u64Mod : Nat := 18446744073709551616

/-- One u32 step: `2 ^ 32`, the modulus of Rust `u32` arithmetic. -/
def u32Mod : Nat := 4294967296

/-- Wrapping `u64` addition (Rust `a + b` on `u64`, release semantics). -/
def add64 (a b : Nat) : Nat := (a + b) % u64Mod

/-- Wrapping `u64` subtraction (Rust `a - b` on `u64`, release semantics). -/
def sub64 (a b : Nat) : Nat := (a + (u64Mod - b % u64Mod)) % u64Mod

/-- `types::account_address::AccountAddress`, modelled as its raw bytes. -/
abbrev AccountAddress := List Nat

/-- `TransferRequest` (src/client/src/lib.rs): a proposed balance update. -/
structure TransferRequest where
  sender : AccountAddress
  version : Nat
  amount : Nat
  self_balance : Nat
  other_balance : Nat
  signature : List Nat
deriving DecidableEq, Repr

/-- `TransferRequest::total_balance` (lib.rs lines 50-54): `self_balance +
other_balance` with Rust `u64` addition. -/
def TransferRequest.total_balance (r : TransferRequest) : Nat :=
  add64 r.self_balance r.other_balance

/-- `TransferConform` (lib.rs): the counterparty's acceptance of a request. -/
structure TransferConform where
  sender : AccountAddress
  signature : List Nat
  request : TransferRequest
deriving DecidableEq, Repr

/-- `ChannelLocalData` (lib.rs): the off-chain agreed state of one channel. -/
structure ChannelLocalData where
  version : Nat
  self_balance : Nat
  other_balance : Nat
  self_signature : List Nat
  other_signature : List Nat
deriving DecidableEq, Repr

/-- `ChannelLocalData::total_balance` (lib.rs lines 80-84): `self_balance +
other_balance` with Rust `u64` addition. -/
def ChannelLocalData.total_balance (d : ChannelLocalData) : Nat :=
  add64 d.self_balance d.other_balance

/-- `ChannelResource` (src/client/src/resource.rs lines 82-86) holds the
fields `other` and `coin`.

Modelled from the spec: the field `closed` is read by lib.rs
(`channel_resource.closed`, `self_channel.closed`) but is absent from the
`ChannelResource` struct in the copy of resource.rs available here; the
spec describes it as the resource's on-chain "closed" flag, set when the
channel has been closed on chain.  The canonical codec in resource.rs
neither writes nor reads it. -/
structure ChannelResource where
  other : AccountAddress
  coin : Nat
  closed : Bool
deriving DecidableEq, Repr

/-- `ProofResource` (resource.rs lines 169-176): an on-chain settlement
proof. -/
structure ProofResource where
  version : Nat
  self_balance : Nat
  other_balance : Nat
  self_signature : List Nat
  other_signature : List Nat
deriving DecidableEq, Repr

/-- `ETokenResource` (resource.rs lines 37-40): a fungible-token balance. -/
structure ETokenResource where
  value : Nat
deriving DecidableEq, Repr

/-- `ClosedChannelResource` (resource.rs lines 123-128): the on-chain record
of a closed channel. -/
structure ClosedChannelResource where
  other : AccountAddress
  coin : Nat
  height : Nat
deriving DecidableEq, Repr

/-- `ChannelStatus` (lib.rs lines 87-92). -/
inductive ChannelStatus where
  | None : ChannelStatus
  | Open : ChannelResource → ChannelStatus
  | Closed : ChannelResource → Option ProofResource → ChannelStatus
deriving DecidableEq, Repr

/-- `ChannelStatus::is_open` (lib.rs lines 94-101). -/
def ChannelStatus.is_open : ChannelStatus → Bool
  | .Open _ => true
  | _ => false

/-- `OffchainChannel` (lib.rs lines 103-112). -/
structure OffchainChannel where
  self_address : AccountAddress
  other_address : AccountAddress
  self_status : ChannelStatus
  other_status : ChannelStatus
  data : Option ChannelLocalData
deriving DecidableEq, Repr

/-- `OffchainChannel::is_ready` (lib.rs lines 150-152). -/
def OffchainChannel.is_ready (c : OffchainChannel) : Bool :=
  c.self_status.is_open && c.other_status.is_open

/-- The protocol's error outcomes.  The Rust code returns string errors via
`ensure!`/`bail!`; each distinct message becomes one constructor:
`"channel is not ready"` → `notReady`, `"balance not enough."` →
`insufficientBalance`, `"check version fail"` → `versionMismatch`,
`"balance check fail."` → `balanceMismatch`, `"unexpect channel status."` →
`unexpectedStatus`. -/
inductive ChannelError where
  | notReady
  | insufficientBalance
  | versionMismatch
  | balanceMismatch
  | unexpectedStatus
deriving DecidableEq, Repr

/-- `OffchainChannel::transfer` (lib.rs lines 154-182).  Takes `&self` in
Rust, so it never modifies the channel; it only returns the request. -/
def OffchainChannel.transfer (c : OffchainChannel) (amount : Nat) :
    Except ChannelError TransferRequest :=
  if !c.is_ready then .error .notReady
  else
    match c.data with
    | some d =>
        if d.self_balance < amount then .error .insufficientBalance
        else
          .ok { sender := c.self_address
                amount := amount
                version := add64 d.version 1
                self_balance := d.self_balance - amount
                other_balance := sub64 d.other_balance amount
                signature := [] }
    | none =>
        match c.self_status, c.other_status with
        | .Open resource, .Open other_resource =>
            if resource.coin < amount then .error .insufficientBalance
            else
              .ok { sender := c.self_address
                    amount := amount
                    version := 1
                    self_balance := resource.coin - amount
                    other_balance := add64 other_resource.coin amount
                    signature := [] }
        | _, _ => .error .unexpectedStatus

/-- `OffchainChannel::conform` (lib.rs lines 184-229).  Takes `&mut self` in
Rust; modelled as returning the updated channel together with the
`TransferConform`.  All `ensure!` checks precede any mutation, so on error
the channel is unchanged. -/
def OffchainChannel.conform (c : OffchainChannel) (request : TransferRequest) :
    Except ChannelError (OffchainChannel × TransferConform) :=
  let signature : List Nat := []
  if !c.is_ready then .error .notReady
  else
    match c.data with
    | some d =>
        if add64 d.version 1 ≠ request.version then .error .versionMismatch
        else if add64 d.self_balance request.amount ≠ request.other_balance then
          .error .balanceMismatch
        else if d.total_balance ≠ request.total_balance then .error .balanceMismatch
        else
          let d' : ChannelLocalData :=
            { d with
              version := request.version
              self_balance := request.other_balance
              other_balance := request.self_balance
              other_signature := request.signature
              self_signature := signature }
          .ok ({ c with data := some d' },
               { sender := c.self_address, signature := signature, request := request })
    | none =>
        if request.version ≠ 1 then .error .versionMismatch
        else
          match c.self_status, c.other_status with
          | .Open resource, .Open other_resource =>
              if other_resource.coin < request.amount then .error .insufficientBalance
              else if add64 resource.coin other_resource.coin ≠ request.total_balance then
                .error .balanceMismatch
              else if request.other_balance ≠ add64 resource.coin request.amount then
                .error .balanceMismatch
              else
                let d : ChannelLocalData :=
                  { version := request.version
                    self_balance := request.other_balance
                    other_balance := request.self_balance
                    other_signature := request.signature
                    self_signature := signature }
                .ok ({ c with data := some d },
                     { sender := c.self_address, signature := signature, request := request })
          | _, _ => .error .unexpectedStatus

/-- `OffchainChannel::process_transfer_conform` (lib.rs lines 231-251).
Takes `&mut self` in Rust; modelled as returning the updated channel. -/
def OffchainChannel.process_transfer_conform (c : OffchainChannel)
    (conform : TransferConform) : Except ChannelError OffchainChannel :=
  if !c.is_ready then .error .notReady
  else
    match c.data with
    | some d =>
        let d' : ChannelLocalData :=
          { d with
            version := conform.request.version
            self_balance := conform.request.self_balance
            other_balance := conform.request.other_balance
            self_signature := conform.request.signature
            other_signature := conform.signature }
        .ok { c with data := some d' }
    | none =>
        let d : ChannelLocalData :=
          { version := conform.request.version
            self_balance := conform.request.self_balance
            other_balance := conform.request.other_balance
            other_signature := conform.signature
            self_signature := conform.request.signature }
        .ok { c with data := some d }

/-- `OffchainChannel::update_with_resource` (lib.rs lines 253-267).  A pure
side effect on the channel's statuses; it cannot fail. -/
def OffchainChannel.update_with_resource (c : OffchainChannel)
    (channel_resource : ChannelResource) (proof_resource : Option ProofResource) :
    OffchainChannel :=
  if channel_resource.other = c.other_address then
    { c with self_status :=
        if channel_resource.closed then ChannelStatus.Closed channel_resource proof_resource
        else ChannelStatus.Open channel_resource }
  else if channel_resource.other = c.self_address then
    { c with other_status :=
        if channel_resource.closed then ChannelStatus.Closed channel_resource proof_resource
        else ChannelStatus.Open channel_resource }
  else c

/-! ## Claim C5: readiness gate -/

/-- C5: for every channel in which `self_status` or `other_status` is not
`Open` (i.e. `is_ready` is false), each of `transfer`, `conform` and
`process_transfer_conform` returns the `NotReady` error
("channel is not ready"). -/
theorem not_ready_rejects_all (c : OffchainChannel) (amount : Nat)
    (req : TransferRequest) (cf : TransferConform) (h : c.is_ready = false) :
    c.transfer amount = .error .notReady ∧
    c.conform req = .error .notReady ∧
    c.process_transfer_conform cf = .error .notReady := by
  unfold OffchainChannel.transfer OffchainChannel.conform
    OffchainChannel.process_transfer_conform
  simp [h]

def c5chan : OffchainChannel :=
  { self_address := [1], other_address := [2],
    self_status := .Open { other := [2], coin := 10, closed := false },
    other_status := .None,
    data := none }

def c5req : TransferRequest :=
  { sender := [2], version := 1, amount := 5, self_balance := 5,
    other_balance := 15, signature := [] }

theorem not_ready_rejects_all_witness :
    c5chan.transfer 5 = .error .notReady ∧
    c5chan.conform c5req = .error .notReady ∧
    c5chan.process_transfer_conform
      { sender := [2], signature := [], request := c5req } = .error .notReady :=
  not_ready_rejects_all c5chan 5 c5req
    { sender := [2], signature := [], request := c5req } (by decide)

/-! ## Claim C4: first-transfer scenario -/

def c4A : OffchainChannel :=
  { self_address := [1], other_address := [2],
    self_status := .Open { other := [2], coin := 100, closed := false },
    other_status := .Open { other := [1], coin := 50, closed := false },
    data := none }

def c4B : OffchainChannel :=
  { self_address := [2], other_address := [1],
    self_status := .Open { other := [1], coin := 50, closed := false },
    other_status := .Open { other := [2], coin := 100, closed := false },
    data := none }

def c4req : TransferRequest :=
  { sender := [1], version := 1, amount := 30, self_balance := 70,
    other_balance := 80, signature := [] }

/-- C4: on a ready channel with no local data, self on-chain coin 100 and
other on-chain coin 50, `transfer 30` yields the request
`{version := 1, self_balance := 70, other_balance := 80}`; on the
counterparty's mirrored ready channel (own coin 50, other coin 100, no
local data) `conform` of that request succeeds and stores local state
`{version := 1, self_balance := 80, other_balance := 70}`. -/
theorem first_transfer_scenario :
    c4A.transfer 30 = .ok c4req ∧
    c4B.conform c4req =
      .ok ({ c4B with data := some { version := 1, self_balance := 80,
                                     other_balance := 70, self_signature := [],
                                     other_signature := [] } },
           { sender := [2], signature := [], request := c4req }) := by
  constructor <;> rfl

/-! ## Claim C10: balance checks wrap modulo 2 ^ 64 -/

def c10data : ChannelLocalData :=
  { version := 1, self_balance := u64Mod - 1, other_balance := 1,
    self_signature := [], other_signature := [] }

def c10chan : OffchainChannel :=
  { self_address := [1], other_address := [2],
    self_status := .Open { other := [2], coin := 0, closed := false },
    other_status := .Open { other := [1], coin := 0, closed := false },
    data := some c10data }

def c10req : TransferRequest :=
  { sender := [2], version := 2, amount := 1, self_balance := 0,
    other_balance := 0, signature := [] }

/-- C10: `conform`'s balance checks compare `self_balance + other_balance`
(via `total_balance`) and `self_balance + amount` with u64 (mod `2 ^ 64`)
addition only: for the local state `c10data` (balances `2 ^ 64 - 1` and
`1`) and the request `c10req` (balances `0` and `0`), whose exact integer
totals differ by `2 ^ 64`, every check passes and `conform` returns `Ok`. -/
theorem conform_balance_checks_wrap :
    (∃ res, c10chan.conform c10req = .ok res) ∧
    c10data.self_balance + c10data.other_balance ≠
      c10req.self_balance + c10req.other_balance ∧
    c10data.self_balance + c10data.other_balance =
      c10req.self_balance + c10req.other_balance + 2 ^ 64 := by
  refine ⟨⟨({ c10chan with data := some { version := 2, self_balance := 0,
                                          other_balance := 0, self_signature := [],
                                          other_signature := [] } },
            { sender := [1], signature := [], request := c10req }), ?_⟩, ?_, ?_⟩
  · rfl
  · decide
  · decide

/-! ## Claim C6: update_with_resource -/

/-- C6: `update_with_resource` is a total function (it cannot fail).  For a
channel whose two addresses are distinct: when the resource's `other`
field equals the channel's `other_address` it replaces `self_status`, and
when it equals the channel's `self_address` it replaces `other_status`; in
either case the new status is `Closed` carrying the proof iff the
resource's `closed` flag is set, and `Open` otherwise; nothing else in the
channel changes. -/
theorem update_with_resource_classifies (c : OffchainChannel)
    (r : ChannelResource) (p : Option ProofResource)
    (hne : c.self_address ≠ c.other_address) :
    (r.other = c.other_address →
      c.update_with_resource r p =
        { c with self_status :=
            if r.closed then ChannelStatus.Closed r p else ChannelStatus.Open r }) ∧
    (r.other = c.self_address →
      c.update_with_resource r p =
        { c with other_status :=
            if r.closed then ChannelStatus.Closed r p else ChannelStatus.Open r }) := by
  constructor <;> intro h
  · unfold OffchainChannel.update_with_resource
    rw [if_pos h]
  · have h2 : ¬ r.other = c.other_address := by rw [h]; exact hne
    unfold OffchainChannel.update_with_resource
    rw [if_neg h2, if_pos h]

def c6chan : OffchainChannel :=
  { self_address := [1], other_address := [2],
    self_status := .None, other_status := .None, data := none }

theorem update_with_resource_classifies_witness :
    c6chan.update_with_resource { other := [2], coin := 9, closed := false } none =
      { c6chan with self_status :=
          ChannelStatus.Open { other := [2], coin := 9, closed := false } } :=
  (update_with_resource_classifies c6chan
      { other := [2], coin := 9, closed := false } none (by decide)).1 rfl

/-! ## Claim C1: conservation on the conform path -/

/-- C1: for every channel whose local state is `some d` and every request
accepted by `conform`, the sum `self_balance + other_balance` of the local
state — computed, as the code does in `total_balance`, with u64
addition — is the same before and after the call. -/
theorem conform_conserves_total (c : OffchainChannel) (d : ChannelLocalData)
    (req : TransferRequest) (c' : OffchainChannel) (conf : TransferConform)
    (hd : c.data = some d) (h : c.conform req = .ok (c', conf)) :
    ∃ d', c'.data = some d' ∧ d'.total_balance = d.total_balance := by
  unfold OffchainChannel.conform at h
  cases hr : c.is_ready with
  | false => rw [hr] at h; simp at h
  | true =>
    rw [hr] at h
    rw [hd] at h
    simp only [Bool.not_true, Bool.false_eq_true, if_false] at h
    split_ifs at h with h1 h2 h3 <;> try exact Except.noConfusion h
    simp only [Except.ok.injEq, Prod.mk.injEq] at h
    obtain ⟨hc', -⟩ := h
    refine ⟨_, by rw [← hc'], ?_⟩
    have h3' : d.total_balance = req.total_balance := not_ne_iff.mp h3
    simp only [ChannelLocalData.total_balance, TransferRequest.total_balance,
      add64] at h3' ⊢
    rw [Nat.add_comm req.other_balance req.self_balance]
    exact h3'.symm

def c1chan : OffchainChannel :=
  { self_address := [1], other_address := [2],
    self_status := .Open { other := [2], coin := 0, closed := false },
    other_status := .Open { other := [1], coin := 0, closed := false },
    data := some { version := 3, self_balance := 80, other_balance := 70,
                   self_signature := [], other_signature := [] } }

def c1req : TransferRequest :=
  { sender := [2], version := 4, amount := 10, self_balance := 60,
    other_balance := 90, signature := [] }

theorem conform_conserves_total_witness :
    ∃ d', ({ c1chan with data := some { version := 4, self_balance := 90,
                                        other_balance := 60, self_signature := [],
                                        other_signature := [] } } :
             OffchainChannel).data = some d' ∧
      d'.total_balance =
        ChannelLocalData.total_balance
          { version := 3, self_balance := 80, other_balance := 70,
            self_signature := [], other_signature := [] } :=
  conform_conserves_total c1chan
    { version := 3, self_balance := 80, other_balance := 70,
      self_signature := [], other_signature := [] }
    c1req
    { c1chan with data := some { version := 4, self_balance := 90,
                                 other_balance := 60, self_signature := [],
                                 other_signature := [] } }
    { sender := [1], signature := [], request := c1req }
    rfl rfl

/-! ## Claim C2: version monotonicity of conform -/

/-- C2: with local state `some d`, `conform` returns an error for every
request whose version is not the current local version plus one (the
code's u64 increment `add64 d.version 1`); with no local state, it returns
an error for every request whose version is not `1`. -/
theorem conform_version_gate (c : OffchainChannel) (req : TransferRequest) :
    (∀ d, c.data = some d → req.version ≠ add64 d.version 1 →
      ∃ e, c.conform req = .error e) ∧
    (c.data = none → req.version ≠ 1 → ∃ e, c.conform req = .error e) := by
  constructor
  · intro d hd hv
    cases hr : c.is_ready with
    | false =>
      exact ⟨.notReady, by unfold OffchainChannel.conform; simp [hr]⟩
    | true =>
      refine ⟨.versionMismatch, ?_⟩
      have hv' : add64 d.version 1 ≠ req.version := fun hvv => hv hvv.symm
      unfold OffchainChannel.conform
      simp [hr, hd, hv']
  · intro hd hv
    cases hr : c.is_ready with
    | false =>
      exact ⟨.notReady, by unfold OffchainChannel.conform; simp [hr]⟩
    | true =>
      refine ⟨.versionMismatch, ?_⟩
      unfold OffchainChannel.conform
      simp [hr, hd, hv]

def c2chan : OffchainChannel :=
  { self_address := [1], other_address := [2],
    self_status := .Open { other := [2], coin := 0, closed := false },
    other_status := .Open { other := [1], coin := 0, closed := false },
    data := some { version := 3, self_balance := 80, other_balance := 70,
                   self_signature := [], other_signature := [] } }

theorem conform_version_gate_witness :
    ∃ e, c2chan.conform
      { sender := [2], version := 9, amount := 1, self_balance := 79,
        other_balance := 71, signature := [] } = .error e :=
  (conform_version_gate c2chan
      { sender := [2], version := 9, amount := 1, self_balance := 79,
        other_balance := 71, signature := [] }).1
    { version := 3, self_balance := 80, other_balance := 70,
      self_signature := [], other_signature := [] }
    rfl (by decide)

/-! ## Claim C3: transfer with local data -/

/-- C3: on a ready channel with local state `some d`, `transfer amount`
returns the insufficient-balance error ("balance not enough.") when
`d.self_balance < amount`, and otherwise returns the request with
`sender = self_address`, `version = d.version + 1` (u64 increment),
`self_balance = d.self_balance - amount` and
`other_balance = d.other_balance - amount` (u64 subtraction): both
balances are decreased by `amount`. -/
theorem transfer_with_local_data (c : OffchainChannel) (d : ChannelLocalData)
    (amount : Nat) (hr : c.is_ready = true) (hd : c.data = some d) :
    (d.self_balance < amount →
      c.transfer amount = .error .insufficientBalance) ∧
    (amount ≤ d.self_balance →
      c.transfer amount =
        .ok { sender := c.self_address, version := add64 d.version 1,
              amount := amount, self_balance := d.self_balance - amount,
              other_balance := sub64 d.other_balance amount,
              signature := [] }) := by
  constructor <;> intro h <;> unfold OffchainChannel.transfer
  · simp [hr, hd, h]
  · simp [hr, hd, Nat.not_lt.mpr h]

theorem transfer_with_local_data_witness :
    c2chan.transfer 30 =
      .ok { sender := [1], version := 4, amount := 30, self_balance := 50,
            other_balance := 40, signature := [] } := by
  have := (transfer_with_local_data c2chan
    { version := 3, self_balance := 80, other_balance := 70,
      self_signature := [], other_signature := [] }
    30 rfl rfl).2 (by decide)
  simpa [add64, sub64, u64Mod] using this

/-! ## Claim C9: "unexpect channel status." is unreachable when ready -/

/-- C9: when `is_ready` holds and there is no local state, the trailing
"unexpect channel status." branches are dead: `transfer` returns either
`Ok` or only the insufficient-balance error, and `conform` never returns
the `unexpectedStatus` error. -/
theorem ready_no_data_no_unexpected (c : OffchainChannel) (amount : Nat)
    (req : TransferRequest) (hr : c.is_ready = true) (hd : c.data = none) :
    ((∃ r, c.transfer amount = .ok r) ∨
      c.transfer amount = .error .insufficientBalance) ∧
    c.conform req ≠ .error .unexpectedStatus := by
  have hro := hr
  unfold OffchainChannel.is_ready at hro
  rw [Bool.and_eq_true] at hro
  obtain ⟨hso, hoo⟩ := hro
  cases hss : c.self_status with
  | Open resource =>
    cases hos : c.other_status with
    | Open other_resource =>
      constructor
      · by_cases hc : resource.coin < amount
        · right
          unfold OffchainChannel.transfer
          simp [hr, hd, hss, hos, hc]
        · left
          refine ⟨{ sender := c.self_address, amount := amount, version := 1,
                    self_balance := resource.coin - amount,
                    other_balance := add64 other_resource.coin amount,
                    signature := [] }, ?_⟩
          unfold OffchainChannel.transfer
          simp [hr, hd, hss, hos, hc]
      · intro hcon
        unfold OffchainChannel.conform at hcon
        rw [hr, hd, hss, hos] at hcon
        simp only [Bool.not_true, Bool.false_eq_true, if_false] at hcon
        split_ifs at hcon <;> simp_all
    | None => rw [hos] at hoo; exact Bool.noConfusion hoo
    | Closed r p => rw [hos] at hoo; exact Bool.noConfusion hoo
  | None => rw [hss] at hso; exact Bool.noConfusion hso
  | Closed r p => rw [hss] at hso; exact Bool.noConfusion hso

theorem ready_no_data_no_unexpected_witness :
    ((∃ r, c4A.transfer 500 = .ok r) ∨
      c4A.transfer 500 = .error .insufficientBalance) ∧
    c4A.conform c4req ≠ .error .unexpectedStatus :=
  ready_no_data_no_unexpected c4A 500 c4req rfl rfl

/-! ## Claim C7: which operations populate `data`

`transfer` takes `&self` in Rust (lib.rs line 154) and returns only the
`TransferRequest`: it performs no state change at all, so a successful
first `transfer` leaves `data` equal to `None`.  Only `conform` and
`process_transfer_conform` (both `&mut self`) create the local state. -/

def c7chan : OffchainChannel :=
  { self_address := [1], other_address := [2],
    self_status := .Open { other := [2], coin := 100, closed := false },
    other_status := .Open { other := [1], coin := 50, closed := false },
    data := none }

/-- C7 counterexample: on the ready channel `c7chan` with `data = none`,
`transfer 30` succeeds, yet the channel after the call is `c7chan` itself
(the Rust method borrows the channel immutably and returns only the
request), so its `data` field is still `none`, not `Some`. -/
theorem transfer_populates_data_cex :
    c7chan.is_ready = true ∧ c7chan.data = none ∧
    (∃ r, c7chan.transfer 30 = .ok r) ∧ c7chan.data = none := by
  refine ⟨rfl, rfl, ⟨{ sender := [1], version := 1, amount := 30,
                       self_balance := 70, other_balance := 80,
                       signature := [] }, rfl⟩, rfl⟩

/-- C7 amended: on a ready channel with no local state, the first
successful `conform` and the first successful `process_transfer_conform`
each populate the channel's `data` field (leave it `Some`); `transfer`
does not modify the channel at all. -/
theorem conform_process_populate_data (c : OffchainChannel)
    (req : TransferRequest) (cf : TransferConform)
    (hr : c.is_ready = true) (hd : c.data = none) :
    (∀ c' conf, c.conform req = .ok (c', conf) → c'.data.isSome = true) ∧
    (∀ c', c.process_transfer_conform cf = .ok c' → c'.data.isSome = true) := by
  constructor
  · intro c' conf h
    unfold OffchainChannel.conform at h
    rw [hr, hd] at h
    simp only [Bool.not_true, Bool.false_eq_true, if_false] at h
    split_ifs at h with h1 <;> try exact Except.noConfusion h
    cases hss : c.self_status <;> rw [hss] at h <;>
      cases hos : c.other_status <;> rw [hos] at h <;> dsimp only at h <;>
      try exact Except.noConfusion h
    split_ifs at h <;> try exact Except.noConfusion h
    simp only [Except.ok.injEq, Prod.mk.injEq] at h
    obtain ⟨hc', -⟩ := h
    rw [← hc']
    rfl
  · intro c' h
    unfold OffchainChannel.process_transfer_conform at h
    rw [hr, hd] at h
    simp only [Bool.not_true, Bool.false_eq_true, if_false,
      Except.ok.injEq] at h
    rw [← h]
    rfl

def c7cf : TransferConform :=
  { sender := [2], signature := [],
    request := { sender := [1], version := 1, amount := 30,
                 self_balance := 70, other_balance := 80, signature := [] } }

theorem conform_process_populate_data_witness :
    ({ c7chan with data := some { version := 1, self_balance := 70,
                                  other_balance := 80, self_signature := [],
                                  other_signature := [] } } :
        OffchainChannel).data.isSome = true :=
  (conform_process_populate_data c7chan c7cf.request c7cf rfl rfl).2
    { c7chan with data := some { version := 1, self_balance := 70,
                                 other_balance := 80, self_signature := [],
                                 other_signature := [] } }
    rfl

/-! ## Canonical codec (claim C8)

The resource structs' `CanonicalSerialize`/`CanonicalDeserialize` impls in
resource.rs write and read their fields in ascending lexicographic order
of the field names, using the external `canonical_serialization` crate's
primitives. -/

/-- Modelled from the spec: the `canonical_serialization` crate's
`encode_u64` is not part of this repository; per the spec's codec contract
a u64 is 8 bytes in a fixed order, little-endian first (matching the
repository's own `test_channel_deserialize` test vector, where coin
`500000000 = 0x1dcd6500` is the bytes `00 65 cd 1d 00 00 00 00`). -/
def u64Bytes (v : Nat) : List Nat :=
  [v % 256, v / 256 % 256, v / 65536 % 256, v / 16777216 % 256,
   v / 4294967296 % 256, v / 1099511627776 % 256,
   v / 281474976710656 % 256, v / 72057594037927936 % 256]

/-- Modelled from the spec: the crate's `decode_u64`, inverse of
`u64Bytes`; fails (`none`) on truncated input. -/
def readU64 : List Nat → Option (Nat × List Nat)
  | b0 :: b1 :: b2 :: b3 :: b4 :: b5 :: b6 :: b7 :: rest =>
      some (b0 + 256 * b1 + 65536 * b2 + 16777216 * b3 +
            4294967296 * b4 + 1099511627776 * b5 +
            281474976710656 * b6 + 72057594037927936 * b7, rest)
  | _ => none

/-- Modelled from the spec: a u32 length, 4 bytes little-endian (the
repository's test vector encodes the address length 32 as `20 00 00 00`). -/
def u32Bytes (v : Nat) : List Nat :=
  [v % 256, v / 256 % 256, v / 65536 % 256, v / 16777216 % 256]

/-- Modelled from the spec: inverse of `u32Bytes`. -/
def readU32 : List Nat → Option (Nat × List Nat)
  | b0 :: b1 :: b2 :: b3 :: rest =>
      some (b0 + 256 * b1 + 65536 * b2 + 16777216 * b3, rest)
  | _ => none

/-- Modelled from the spec: variable-length byte strings (and the
`AccountAddress` and `ByteArray` structs, which serialize as their raw
bytes) are length-prefixed: a u32 length then the bytes themselves. -/
def bytesEnc (l : List Nat) : List Nat := u32Bytes l.length ++ l

/-- Modelled from the spec: inverse of `bytesEnc`; fails (`none`) when the
declared length exceeds the remaining buffer. -/
def readBytes (s : List Nat) : Option (List Nat × List Nat) :=
  match readU32 s with
  | some (n, rest) =>
      if n ≤ rest.length then some (rest.take n, rest.drop n) else none
  | none => none

/-- `CanonicalSerialize for ETokenResource` (resource.rs lines 62-68). -/
def ETokenResource.encode (v : ETokenResource) : List Nat :=
  u64Bytes v.value

/-- `CanonicalDeserialize for ETokenResource` (resource.rs lines 70-78). -/
def ETokenResource.decode (s : List Nat) : Option ETokenResource :=
  match readU64 s with
  | some (value, _) => some { value := value }
  | none => none

/-- `CanonicalSerialize for ChannelResource` (resource.rs lines 98-105):
`coin` then `other`, the fields in lexicographic name order.  The
spec-modelled `closed` flag is not serialized. -/
def ChannelResource.encode (v : ChannelResource) : List Nat :=
  u64Bytes v.coin ++ bytesEnc v.other

/-- `CanonicalDeserialize for ChannelResource` (resource.rs lines
107-118): reads `coin` then `other`; the spec-modelled `closed` flag is
not read and is left at its `Default` value `false`. -/
def ChannelResource.decode (s : List Nat) : Option ChannelResource :=
  match readU64 s with
  | some (coin, rest) =>
      match readBytes rest with
      | some (other, _) => some { other := other, coin := coin, closed := false }
      | none => none
  | none => none

/-- `CanonicalSerialize for ClosedChannelResource` (resource.rs lines
140-149): `coin`, `height`, `other` in lexicographic name order. -/
def ClosedChannelResource.encode (v : ClosedChannelResource) : List Nat :=
  u64Bytes v.coin ++ (u64Bytes v.height ++ bytesEnc v.other)

/-- `CanonicalDeserialize for ClosedChannelResource` (resource.rs lines
151-164). -/
def ClosedChannelResource.decode (s : List Nat) : Option ClosedChannelResource :=
  match readU64 s with
  | some (coin, rest) =>
      match readU64 rest with
      | some (height, rest2) =>
          match readBytes rest2 with
          | some (other, _) => some { other := other, coin := coin, height := height }
          | none => none
      | none => none
  | none => none

/-- `CanonicalSerialize for ProofResource` (resource.rs lines 188-198):
`other_balance`, `other_signature`, `self_balance`, `self_signature`,
`version` in lexicographic name order. -/
def ProofResource.encode (v : ProofResource) : List Nat :=
  u64Bytes v.other_balance ++ (bytesEnc v.other_signature ++
    (u64Bytes v.self_balance ++ (bytesEnc v.self_signature ++
      u64Bytes v.version)))

/-- `CanonicalDeserialize for ProofResource` (resource.rs lines 200-218). -/
def ProofResource.decode (s : List Nat) : Option ProofResource :=
  match readU64 s with
  | some (other_balance, r1) =>
      match readBytes r1 with
      | some (other_signature, r2) =>
          match readU64 r2 with
          | some (self_balance, r3) =>
              match readBytes r3 with
              | some (self_signature, r4) =>
                  match readU64 r4 with
                  | some (version, _) =>
                      some { version := version, self_balance := self_balance,
                             other_balance := other_balance,
                             self_signature := self_signature,
                             other_signature := other_signature }
                  | none => none
              | none => none
          | none => none
      | none => none
  | none => none

theorem readU64_u64Bytes (v : Nat) (h : v < u64Mod) (rest : List Nat) :
    readU64 (u64Bytes v ++ rest) = some (v, rest) := by
  simp only [u64Bytes, List.cons_append, List.nil_append, readU64,
    Option.some.injEq, Prod.mk.injEq, and_true]
  unfold u64Mod at h
  omega

theorem readU32_u32Bytes (v : Nat) (h : v < u32Mod) (rest : List Nat) :
    readU32 (u32Bytes v ++ rest) = some (v, rest) := by
  simp only [u32Bytes, List.cons_append, List.nil_append, readU32,
    Option.some.injEq, Prod.mk.injEq, and_true]
  unfold u32Mod at h
  omega

theorem readBytes_bytesEnc (l : List Nat) (h : l.length < u32Mod)
    (rest : List Nat) : readBytes (bytesEnc l ++ rest) = some (l, rest) := by
  unfold bytesEnc readBytes
  rw [List.append_assoc, readU32_u32Bytes l.length h]
  have hlen : l.length ≤ (l ++ rest).length := by
    rw [List.length_append]; omega
  dsimp only
  rw [if_pos hlen, List.take_left, List.drop_left]

theorem eToken_decode_encode (v : ETokenResource) (h : v.value < u64Mod) :
    ETokenResource.decode (ETokenResource.encode v) = some v := by
  unfold ETokenResource.encode ETokenResource.decode
  have := readU64_u64Bytes v.value h []
  rw [List.append_nil] at this
  rw [this]

theorem channel_decode_encode (other : List Nat) (coin : Nat)
    (h1 : coin < u64Mod) (h2 : other.length < u32Mod) :
    ChannelResource.decode
        (ChannelResource.encode { other := other, coin := coin, closed := false }) =
      some { other := other, coin := coin, closed := false } := by
  unfold ChannelResource.encode ChannelResource.decode
  rw [readU64_u64Bytes coin h1]
  dsimp only
  have := readBytes_bytesEnc other h2 []
  rw [List.append_nil] at this
  rw [this]

theorem closedChannel_decode_encode (v : ClosedChannelResource)
    (h1 : v.coin < u64Mod) (h2 : v.height < u64Mod)
    (h3 : v.other.length < u32Mod) :
    ClosedChannelResource.decode (ClosedChannelResource.encode v) = some v := by
  unfold ClosedChannelResource.encode ClosedChannelResource.decode
  rw [readU64_u64Bytes v.coin h1]
  dsimp only
  rw [readU64_u64Bytes v.height h2]
  dsimp only
  have := readBytes_bytesEnc v.other h3 []
  rw [List.append_nil] at this
  rw [this]

theorem proof_decode_encode (v : ProofResource)
    (h1 : v.version < u64Mod) (h2 : v.self_balance < u64Mod)
    (h3 : v.other_balance < u64Mod) (h4 : v.self_signature.length < u32Mod)
    (h5 : v.other_signature.length < u32Mod) :
    ProofResource.decode (ProofResource.encode v) = some v := by
  unfold ProofResource.encode ProofResource.decode
  rw [readU64_u64Bytes v.other_balance h3]
  dsimp only
  rw [readBytes_bytesEnc v.other_signature h5]
  dsimp only
  rw [readU64_u64Bytes v.self_balance h2]
  dsimp only
  rw [readBytes_bytesEnc v.self_signature h4]
  dsimp only
  have := readU64_u64Bytes v.version h1 []
  rw [List.append_nil] at this
  rw [this]

/-- C8: canonical deserialization is a left inverse of canonical
serialization for every representable value of the four on-chain resource
types of resource.rs.  A `ChannelResource` of resource.rs is determined by
its fields `other` and `coin` (the spec-modelled `closed` flag, absent
from the struct in resource.rs, is fixed at its `Default` of `false`);
representable means every u64 field is below `2 ^ 64` and every byte
string is shorter than `2 ^ 32`. -/
theorem codec_round_trip :
    (∀ v : ETokenResource, v.value < u64Mod →
      ETokenResource.decode (ETokenResource.encode v) = some v) ∧
    (∀ (other : List Nat) (coin : Nat), coin < u64Mod →
      other.length < u32Mod →
      ChannelResource.decode
          (ChannelResource.encode { other := other, coin := coin, closed := false }) =
        some { other := other, coin := coin, closed := false }) ∧
    (∀ v : ClosedChannelResource, v.coin < u64Mod → v.height < u64Mod →
      v.other.length < u32Mod →
      ClosedChannelResource.decode (ClosedChannelResource.encode v) = some v) ∧
    (∀ v : ProofResource, v.version < u64Mod → v.self_balance < u64Mod →
      v.other_balance < u64Mod → v.self_signature.length < u32Mod →
      v.other_signature.length < u32Mod →
      ProofResource.decode (ProofResource.encode v) = some v) :=
  ⟨eToken_decode_encode,
   channel_decode_encode,
   closedChannel_decode_encode,
   proof_decode_encode⟩

theorem codec_round_trip_witness :
    ETokenResource.decode (ETokenResource.encode { value := 500000000 }) =
      some { value := 500000000 } ∧
    ChannelResource.decode
        (ChannelResource.encode { other := [7, 8], coin := 9, closed := false }) =
      some { other := [7, 8], coin := 9, closed := false } ∧
    ClosedChannelResource.decode
        (ClosedChannelResource.encode { other := [3], coin := 4, height := 5 }) =
      some { other := [3], coin := 4, height := 5 } ∧
    ProofResource.decode
        (ProofResource.encode { version := 1, self_balance := 2, other_balance := 3,
                                self_signature := [6], other_signature := [] }) =
      some { version := 1, self_balance := 2, other_balance := 3,
             self_signature := [6], other_signature := [] } :=
  ⟨codec_round_trip.1 { value := 500000000 } (by decide),
   codec_round_trip.2.1 [7, 8] 9 (by decide) (by decide),
   codec_round_trip.2.2.1 { other := [3], coin := 4, height := 5 }
     (by decide) (by decide) (by decide),
   codec_round_trip.2.2.2 { version := 1, self_balance := 2, other_balance := 3,
                            self_signature := [6], other_signature := [] }
     (by decide) (by decide) (by decide) (by decide) (by decide)⟩
